import Mathlib

/-
Verification development for the tranzac-pricing-lib booking-pricing engine.

The engine is embedded shallowly:
* Instants are modelled as minutes on an absolute timeline (`DateTime := Nat`)
  whose day 0 is a Sunday, matching the wall-clock arithmetic the source
  performs after normalising to the venue timezone (`toZonedTime` is the
  identity in this model).  `hourOf`/`minuteOf`/`dayOfWeek` mirror
  `Date.getHours`/`getMinutes`/`getDay`; `diffInHours` mirrors date-fns
  `differenceInHours` (whole hours, truncated toward zero).
* Money and rates are exact rationals.
* JavaScript truthiness on optional numeric rule fields (`x && …`, `x || y`)
  is modelled by `truthy`/`strOr`.
* Generated uuid line-item ids are omitted: they never enter any total.
* `pricingRules.ts` bundles two revisions of the class.  Namespace `RevA`
  embeds the first revision (with `calculateRoomPrice`,
  `calculateHoursAndCost`, the Southern Cross validation, and the
  resource-cost resolver); namespace `RevB` embeds the per-room pricing that
  the second revision inlines in its `calculatePrice` (full-day type
  branching, crossover substitution, whole-booking minimum-hour scaling).
-/

namespace Tranzac

/-- An instant: minutes since a Sunday-midnight epoch (venue-local wall clock). -/
abbrev DateTime := Nat

/-- `Date.prototype.getHours` of the instant. -/
def hourOf (t : DateTime) : Nat := t / 60 % 24

/-- `Date.prototype.getMinutes` of the instant. -/
def minuteOf (t : DateTime) : Nat := t % 60

/-- `Date.prototype.getDay`: 0 = Sunday … 6 = Saturday. -/
def dayOfWeek (t : DateTime) : Nat := t / 1440 % 7

/-- date-fns `differenceInHours e s`: whole hours of `e - s`, truncated toward zero. -/
def diffInHours (e s : DateTime) : Int :=
  if s ≤ e then ((e - s) / 60 : Nat) else -(((s - e) / 60 : Nat) : Int)

/-- `setHours(17,0,0,0)` on the start instant: 17:00 of the same day. -/
def eveningStartOf (s : DateTime) : DateTime := s / 1440 * 1440 + 17 * 60

/-- `setHours(18,0,0,0)` on the start instant: the venue opening hour. -/
def venueOpeningOf (s : DateTime) : DateTime := s / 1440 * 1440 + 18 * 60

/-- JavaScript truthiness of an optional numeric field (`undefined` and `0` are falsy). -/
def truthy : Option ℚ → Bool
  | none => false
  | some q => decide (q ≠ 0)

/-- JavaScript `s || d` on strings (the empty string is falsy). -/
def strOr (s d : String) : String := if s = "" then d else s

/-- `format(date, "EEEE")` for a day-of-week index. -/
def weekdayName : Nat → String
  | 0 => "Sunday"
  | 1 => "Monday"
  | 2 => "Tuesday"
  | 3 => "Wednesday"
  | 4 => "Thursday"
  | 5 => "Friday"
  | 6 => "Saturday"
  | _ => "Sunday"

/-- The `type` field of a rate rule (`"flat"` or `"hourly"` in the rule catalog). -/
inductive RateType
  | flat
  | hourly
deriving DecidableEq, Repr

def rateTypeStr : RateType → String
  | .flat => "flat"
  | .hourly => "hourly"

/-- A daytime/evening sub-rule of a day rule.  `parentAttached` records the
back-reference `rules.daytime.parent = rules` that `getDayRules` installs
(the cyclic object reference is flattened to a flag; nothing that the
claims touch reads through the reference). -/
structure PeriodRule where
  publicRate : ℚ
  privateRate : ℚ
  type : RateType
  minimumHours : Option ℚ := none
  crossoverRate : Option ℚ := none
  parentAttached : Bool := false
deriving DecidableEq, Repr

/-- A `fullDay` entry of a day rule. -/
structure FullDayRule where
  publicRate : ℚ
  privateRate : ℚ
  type : RateType
  minimumHours : Option ℚ := none
deriving DecidableEq, Repr

/-- The pricing rule for one room on one weekday (or the "all" fallback). -/
structure DayRule where
  fullDay : Option FullDayRule := none
  daytime : Option PeriodRule := none
  evening : Option PeriodRule := none
  minimumHours : Option ℚ := none
deriving DecidableEq, Repr

/-- `rule[isPrivate ? "private" : "public"]` for a period sub-rule. -/
def selRate (p : PeriodRule) (isPrivate : Bool) : ℚ :=
  if isPrivate then p.privateRate else p.publicRate

/-- `rule[isPrivate ? "private" : "public"]` for a fullDay entry. -/
def selFullDayRate (f : FullDayRule) (isPrivate : Bool) : ℚ :=
  if isPrivate then f.privateRate else f.publicRate

/-- Weekday → day rule table for one room (`rule.pricing` keyed by weekday name or "all"). -/
abbrev RoomRules := List (String × DayRule)

/-- The per-room rule catalog (`this.rules`, keyed by room slug). -/
abbrev Rules := List (String × RoomRules)

namespace RevB

/-
Second revision of `pricingRules.ts` (the class at lines 1625-2374): the
per-room price computation inlined in its `calculatePrice` (lines 2050-2134).
-/

/-- One priced segment (daytime or evening) of the second revision.
`applied` records whether the corresponding branch ran. -/
structure SegmentCalc where
  price : ℚ
  hours : Int
  rate : ℚ
  applied : Bool
  crossover : Bool
deriving DecidableEq, Repr

/-- The initial value of the revision's `daytimePrice` variable:
`dayRules.daytime ? dayRules.daytime[isPrivate ? "private" : "public"] || 0 : 0`. -/
def initDaytimePrice (rule : DayRule) (isPrivate : Bool) : ℚ :=
  match rule.daytime with
  | some d => selRate d isPrivate
  | none => 0

/-- The daytime branch (source lines 2086-2106): runs when the booking starts
before 17:00 and a daytime rule exists; substitutes the crossover rate when
the booking crosses the boundary and `crossoverRate` is truthy; always prices
`rate × hours`. -/
def daytimeCalc (rule : DayRule) (isPrivate : Bool) (s e : DateTime) : SegmentCalc :=
  let evStart := eveningStartOf s
  match rule.daytime with
  | none => ⟨0, 0, 0, false, false⟩
  | some d =>
    if s < evStart then
      let crossing : Bool := decide (evStart < e)
      let dEnd := if crossing then evStart else e
      let hours := diffInHours dEnd s
      let rate0 := selRate d isPrivate
      let rc := if crossing && truthy d.crossoverRate then (d.crossoverRate.getD 0, true) else (rate0, false)
      ⟨rc.1 * (hours : ℚ), hours, rc.1, true, rc.2⟩
    else ⟨0, 0, 0, false, false⟩

/-- The evening branch (source lines 2108-2121): runs when the booking ends
after 17:00; hours are counted from 17:00 of the start day; flat rules charge
the rate once, hourly rules `rate × hours`. -/
def eveningCalc (rule : DayRule) (isPrivate : Bool) (s e : DateTime) : SegmentCalc :=
  let evStart := eveningStartOf s
  match rule.evening with
  | none => ⟨0, 0, 0, false, false⟩
  | some ev =>
    if evStart < e then
      let hours := diffInHours e evStart
      let rate := selRate ev isPrivate
      let price := match ev.type with
        | .flat => rate
        | .hourly => rate * (hours : ℚ)
      ⟨price, hours, rate, true, false⟩
    else ⟨0, 0, 0, false, false⟩

/-- The base price before the whole-booking minimum-hour floor:
the sum of the daytime and evening branch contributions. -/
def rawBasePrice (rule : DayRule) (isPrivate : Bool) (s e : DateTime) : ℚ :=
  (daytimeCalc rule isPrivate s e).price + (eveningCalc rule isPrivate s e).price

/-- The whole-booking minimum-hour floor (source lines 2123-2133):
`if (dayRules.minimumHours && totalBookingHours < dayRules.minimumHours)`
scale by `minimumHours / totalBookingHours` and keep the larger price. -/
def applyMinimumHours (m : Option ℚ) (totalH : Int) (base : ℚ) : ℚ :=
  if truthy m = true ∧ (totalH : ℚ) < m.getD 0 then
    let minimumPrice := base * (m.getD 0 / (totalH : ℚ))
    if base < minimumPrice then minimumPrice else base
  else base

/-- The fields of the second revision's per-room estimate that the claims read. -/
structure EstimateCore where
  basePrice : ℚ
  daytimeHours : Int
  eveningHours : Int
  daytimePrice : ℚ
  eveningPrice : ℚ
  fullDayPrice : ℚ
  daytimeRate : ℚ
  eveningRate : ℚ
  crossoverApplied : Bool
deriving DecidableEq, Repr

/-- The per-room computation of the second revision's `calculatePrice`
(source lines 2050-2134): full-day logic first (flat rate, or hourly rate ×
max(totalBookingHours, minimumHours ?? 0)); otherwise daytime + evening
segments followed by the whole-booking minimum-hour floor. -/
def calculatePriceRoom (dayRules : DayRule) (isPrivate : Bool) (s e : DateTime) : EstimateCore :=
  let totalH := diffInHours e s
  match dayRules.fullDay with
  | some f =>
    let fullDayRate := selFullDayRate f isPrivate
    let fullDayPrice :=
      match f.type with
      | .flat => fullDayRate
      | .hourly => fullDayRate * max (totalH : ℚ) (f.minimumHours.getD 0)
    { basePrice := fullDayPrice
      daytimeHours := 0
      eveningHours := 0
      daytimePrice := initDaytimePrice dayRules isPrivate
      eveningPrice := 0
      fullDayPrice := fullDayPrice
      daytimeRate := 0
      eveningRate := 0
      crossoverApplied := false }
  | none =>
    let dc := daytimeCalc dayRules isPrivate s e
    let ec := eveningCalc dayRules isPrivate s e
    { basePrice := applyMinimumHours dayRules.minimumHours totalH (rawBasePrice dayRules isPrivate s e)
      daytimeHours := dc.hours
      eveningHours := ec.hours
      daytimePrice := if dc.applied then dc.price else initDaytimePrice dayRules isPrivate
      eveningPrice := ec.price
      fullDayPrice := 0
      daytimeRate := dc.rate
      eveningRate := ec.rate
      crossoverApplied := dc.crossover }

end RevB

namespace RevA

/-
First revision of `pricingRules.ts` (the class at lines 1-1624).
-/

/-- Module-level `SOUTHERN_CROSS_ID` (line 113): the room id, not the slug. -/
def SOUTHERN_CROSS_ID : String := "DhqLkkzvQmKvCDMubndPjw"

/-- `isEveningTime` (lines 509-512): hour ≥ 17 or hour < 5. -/
def isEveningTime (t : DateTime) : Bool :=
  decide (17 ≤ hourOf t) || decide (hourOf t < 5)

/-- `isCrossoverPeriod` (lines 1507-1516): starts before 17:00 and ends at hour ≥ 17. -/
def isCrossoverPeriod (s e : DateTime) : Bool :=
  decide (hourOf s < 17) && decide (17 ≤ hourOf e)

/-- Return value of `calculateHoursAndCost`. -/
structure HoursCost where
  hours : Int
  cost : ℚ
  hourlyRate : Option ℚ
  crossoverApplied : Bool
  isSouthernCrossSpecialHours : Bool
deriving DecidableEq, Repr

/-- `calculateHoursAndCost` (lines 1584-1611): substitutes a truthy crossover
rate during a crossover period; flat segments are charged the regular `rate`
(the crossover substitution only enters the hourly cost). -/
def calculateHoursAndCost (s e : DateTime) (rate : ℚ) (rateType : RateType)
    (crossoverRate : Option ℚ) (roomSlug : String) : HoursCost :=
  let hours := diffInHours e s
  let effectiveRate :=
    if isCrossoverPeriod s e && truthy crossoverRate then crossoverRate.getD 0 else rate
  { hours := hours
    cost := match rateType with
      | .flat => rate
      | .hourly => effectiveRate * (hours : ℚ)
    hourlyRate := match rateType with
      | .flat => none
      | .hourly => some effectiveRate
    crossoverApplied := decide (effectiveRate ≠ rate)
    isSouthernCrossSpecialHours :=
      decide (roomSlug = SOUTHERN_CROSS_ID) && decide (11 ≤ hourOf s) && decide (hourOf e ≤ 16) }

/-- The fields returned by `calculateRoomPrice` that the claims read
(`BookingRates`; the presentational cost items and rate description are
omitted — nothing numeric flows through them). -/
structure BookingRates where
  basePrice : ℚ
  daytimeHours : Int
  eveningHours : Int
  daytimePrice : ℚ
  eveningPrice : ℚ
  daytimeRate : ℚ
  eveningRate : ℚ
  daytimeRateType : String
  eveningRateType : String
  crossoverApplied : Bool
  totalCost : ℚ
  totalBookingHours : Int
  isFullDay : Bool
  fullDayPrice : ℚ
deriving DecidableEq, Repr

/-- `calculateRoomPrice` (lines 741-930).  A `fullDay` rule returns the raw
per-privacy value immediately (no type branching, zero hours).  Otherwise the
daytime segment runs when the booking is not evening-only and starts before
17:00, and the evening segment when it ends after 17:00; there is no
minimum-hour application anywhere in this revision's room pricing. -/
def calculateRoomPrice (s e : DateTime) (dayRules : DayRule) (isPrivate : Bool)
    (roomSlug : String) : BookingRates :=
  let evStart := eveningStartOf s
  let totalH := diffInHours e s
  let crossing : Bool := decide (s < evStart) && decide (evStart < e)
  let isEveningOnly := isEveningTime s && isEveningTime e
  match dayRules.fullDay with
  | some f =>
    let fullDayPrice := selFullDayRate f isPrivate
    { basePrice := fullDayPrice
      daytimeHours := 0
      eveningHours := 0
      daytimePrice := 0
      eveningPrice := 0
      daytimeRate := 0
      eveningRate := 0
      daytimeRateType := "flat"
      eveningRateType := "flat"
      crossoverApplied := false
      totalCost := fullDayPrice
      totalBookingHours := totalH
      isFullDay := true
      fullDayPrice := fullDayPrice }
  | none =>
    let dres : Option (HoursCost × ℚ) :=
      match dayRules.daytime with
      | some d =>
        if !isEveningOnly && decide (s < evStart) then
          let dEnd := if crossing then evStart else e
          let pricingRate := selRate d isPrivate
          some (calculateHoursAndCost s dEnd pricingRate d.type d.crossoverRate roomSlug, pricingRate)
        else none
      | none => none
    let daytimeHours := match dres with | some (hc, _) => hc.hours | none => 0
    let daytimePrice := match dres with | some (hc, _) => hc.cost | none => 0
    let daytimeRate := match dres with
      | some (hc, pricingRate) =>
        match hc.hourlyRate with
        | some hr => if hr = 0 then pricingRate else hr
        | none => pricingRate
      | none => 0
    let crossoverApplied := match dres with | some (hc, _) => hc.crossoverApplied | none => false
    let eres : Option (HoursCost × PeriodRule) :=
      match dayRules.evening with
      | some ev =>
        if decide (evStart < e) then
          let evStartDT := if crossing then evStart else s
          some (calculateHoursAndCost evStartDT e (selRate ev isPrivate) ev.type ev.crossoverRate roomSlug, ev)
        else none
      | none => none
    let eveningHours := match eres with | some (hc, _) => hc.hours | none => 0
    let eveningPrice := match eres with | some (hc, _) => hc.cost | none => 0
    let eveningRate := match eres with
      | some (hc, ev) =>
        match hc.hourlyRate with
        | some hr => if hr = 0 then selRate ev isPrivate else hr
        | none => selRate ev isPrivate
      | none => 0
    let eveningRateType := match eres with | some (_, ev) => rateTypeStr ev.type | none => ""
    let basePrice := daytimePrice + eveningPrice
    { basePrice := basePrice
      daytimeHours := daytimeHours
      eveningHours := eveningHours
      daytimePrice := daytimePrice
      eveningPrice := eveningPrice
      daytimeRate := daytimeRate
      eveningRate := eveningRate
      daytimeRateType := ""
      eveningRateType := eveningRateType
      crossoverApplied := crossoverApplied
      totalCost := basePrice + eveningPrice
      totalBookingHours := daytimeHours + eveningHours
      isFullDay := false
      fullDayPrice := 0 }

/-- `rules.period.minimumHours = rules.period.minimumHours || rules.minimumHours`. -/
def hoistMin (m : Option ℚ) (p : PeriodRule) : PeriodRule :=
  { p with minimumHours := if truthy p.minimumHours then p.minimumHours else m }

/-- `rules.period.parent = rules`. -/
def attachParent (p : PeriodRule) : PeriodRule :=
  { p with parentAttached := true }

/-- The in-place rewrite that `getDayRules` (lines 1535-1582) performs on the
stored rule object: a truthy top-level `minimumHours` is copied into the
daytime/evening sub-rules (unless they already carry a truthy value) and then
deleted, and `parent` back-references are attached to both sub-rules. -/
def dayRulesTransform (r : DayRule) : DayRule :=
  let r1 :=
    if truthy r.minimumHours then
      { r with
        daytime := r.daytime.map (hoistMin r.minimumHours)
        evening := r.evening.map (hoistMin r.minimumHours)
        minimumHours := none }
    else r
  { r1 with
    daytime := r1.daytime.map attachParent
    evening := r1.evening.map attachParent }

/-- `getDayRules` (lines 1535-1582): look up the weekday rule, falling back to
`"all"`, then apply the in-place rewrite. -/
def getDayRules (roomRules : RoomRules) (dateDay : Nat) : Option DayRule :=
  ((roomRules.lookup (weekdayName (dateDay % 7))).orElse
    (fun _ => roomRules.lookup "all")).map dayRulesTransform

/-- The key of the rule object that `getDayRules` mutates: the weekday entry
when present, otherwise the `"all"` entry. -/
def dayRuleKey (roomRules : RoomRules) (dateDay : Nat) : String :=
  if (roomRules.lookup (weekdayName (dateDay % 7))).isSome then weekdayName (dateDay % 7) else "all"

/-- The room's weekday → day-rule mapping as it stands after `getDayRules`
has run for a booking on day `dateDay` (the looked-up entry has been
rewritten in place). -/
def roomRulesAfter (roomRules : RoomRules) (dateDay : Nat) : RoomRules :=
  roomRules.map (fun p =>
    if p.1 = dayRuleKey roomRules dateDay then (p.1, dayRulesTransform p.2) else p)

end RevA

/-- A cost line item (`Cost`).  Generated uuid ids are omitted: they never
enter any total and are fresh per run. -/
structure Cost where
  description : String := ""
  subDescription : String := ""
  cost : ℚ := 0
  roomSlug : Option String := none
  isRequired : Bool := false
  isEditable : Bool := false
deriving DecidableEq, Repr

/-- A room-specific override inside a resource's `rooms` map. -/
structure RoomResourceConfig where
  cost : ℚ := 0
  description : String := ""
  includes_projector : Bool := false
deriving DecidableEq, Repr

/-- One entry of the additional-cost catalog's `resources` array. -/
structure Resource where
  id : String
  cost : ℚ := 0
  type : String := ""
  description : String := ""
  subDescription : String := ""
  rooms : List (String × RoomResourceConfig) := []
deriving DecidableEq, Repr

/-- One entry of the additional-cost catalog's `conditions` array. -/
structure CostCondition where
  roomSlug : String
  description : String := ""
  subDescription : String := ""
  cost : ℚ := 0
  isRequired : Bool := false
deriving DecidableEq, Repr

/-- The additional-cost catalog (`this.additionalCosts`). -/
structure AdditionalCostsDB where
  conditions : List CostCondition := []
  resources : List Resource := []
deriving DecidableEq, Repr

/-- A booking as it reaches `calculatePrice` (validated, parsed times). -/
structure Booking where
  roomSlugs : List String
  startTime : DateTime
  endTime : DateTime
  date : Nat
  isPrivate : Bool := false
  expectedAttendance : Nat := 0
  resources : List String := []
deriving DecidableEq, Repr

/-- A raw booking as it reaches `prepareBookingForPricing`.  `none` in
`startTime`/`endTime`/`date` models a missing or unparseable field (a string
on which `parseISO` yields an invalid date). -/
structure RawBooking where
  roomSlugs : List String := []
  startTime : Option DateTime := none
  endTime : Option DateTime := none
  date : Option Nat := none
  isPrivate : Bool := false
  expectedAttendance : Nat := 0
  resources : List String := []
deriving DecidableEq, Repr

def sumCosts (cs : List Cost) : ℚ := (cs.map (fun c => c.cost)).sum

namespace RevA

/-- `this.additionalCosts.resources.find(r => r.id === resourceId)`. -/
def findResource (db : AdditionalCostsDB) (resourceId : String) : Option Resource :=
  db.resources.find? (fun r => r.id == resourceId)

/-- The `ResourceDetails` record built in `calculateAdditionalCosts`
(lines 979-986): note `projectorIncluded` is just "backline was requested". -/
structure ResourceDetails where
  roomSlug : String
  isPrivate : Bool
  expectedAttendance : Nat
  startTime : DateTime
  endTime : DateTime
  projectorIncluded : Bool
deriving DecidableEq, Repr

/-- Return type of `calculateResourceCost` (`Cost | Cost[] | null`). -/
inductive ResCost
  | nothing
  | one (c : Cost)
  | many (cs : List Cost)
deriving DecidableEq, Repr

/-- Note text such as `"7 hours @ $25.00/hour"`; the locale currency
formatting of the source is abstracted to the numbers involved. -/
def hoursAtRateNote (hours : Int) (rate : ℚ) : String :=
  toString hours ++ " hours at " ++ toString rate ++ " per hour"

/-- `calculateResourceCost` (lines 1172-1295). -/
def calculateResourceCost (db : AdditionalCostsDB) (resourceId : String)
    (details : ResourceDetails) : ResCost :=
  match findResource db resourceId with
  | none => .nothing
  | some resourceConfig =>
    let cost := resourceConfig.cost
    let description := resourceConfig.description
    let subDescription := resourceConfig.subDescription
    if resourceId = "food" then
      .one { description := description, subDescription := subDescription,
             cost := cost, isRequired := true }
    else if resourceId = "backline" then
      match resourceConfig.rooms.lookup details.roomSlug with
      | some roomSpecificCost =>
        .one { description := strOr roomSpecificCost.description description
               subDescription :=
                 if roomSpecificCost.includes_projector then "Includes projector" else subDescription
               cost := roomSpecificCost.cost
               isRequired := false, isEditable := false }
      | none =>
        .one { description := description, subDescription := subDescription,
               cost := cost, isRequired := false, isEditable := false }
    else if resourceId = "bartender" then
      if details.isPrivate && decide (100 < details.expectedAttendance) then
        .one { description := strOr resourceConfig.description "Bartender"
               subDescription := "Comped for large private event"
               cost := 0, isRequired := true }
      else
        let hours := diffInHours details.endTime details.startTime
        .one { description := strOr resourceConfig.description "Bartender"
               subDescription := hoursAtRateNote hours resourceConfig.cost
               cost := resourceConfig.cost * (hours : ℚ) }
    else if resourceId = "projector" then
      if details.projectorIncluded then .nothing
      else .one { description := description, subDescription := subDescription, cost := cost }
    else if resourceId = "audio_tech" then
      let baseCost := resourceConfig.cost
      let overtimeConfig := findResource db "audio_tech_overtime"
      let totalHours := diffInHours details.endTime details.startTime
      let overtimeHours := max 0 (totalHours - 7)
      let baseItem : Cost :=
        { description := description, subDescription := subDescription, cost := baseCost }
      match overtimeConfig with
      | some oc =>
        if 0 < overtimeHours then
          .many [baseItem,
            { description := strOr oc.description "Overtime"
              subDescription := oc.subDescription
              cost := oc.cost * (overtimeHours : ℚ) }]
        else .many [baseItem]
      | none => .many [baseItem]
    else
      let cost1 :=
        if resourceConfig.type = "hourly" then
          resourceConfig.cost * ((diffInHours details.endTime details.startTime : Int) : ℚ)
        else cost
      .one { description := description, subDescription := subDescription, cost := cost1 }

/-- The splice guard in the backline branch: does the item description
contain the substring "Projector". -/
def containsProjector (s : String) : Bool :=
  decide ("Projector".toList <:+: s.toList)

/-- The slug normalisation for room-config lookups: every hyphen becomes an
underscore. -/
def underscoreSlug (s : String) : String :=
  s.map (fun c => if c = '-' then '_' else c)

/-- One iteration of the resource loop in `calculateAdditionalCosts`
(lines 989-1124).  The accumulator carries (perSlotCosts, customLineItems);
the backline branch may splice previously pushed projector items out. -/
def processResource (db : AdditionalCostsDB) (details : ResourceDetails)
    (acc : List Cost × List Cost) (resourceId : String) : List Cost × List Cost :=
  match findResource db resourceId with
  | none => acc
  | some resource =>
    if resourceId = "security" then acc
    else if resourceId = "food" then
      match calculateResourceCost db resourceId details with
      | .one c =>
        (acc.1 ++ [{ c with isRequired := true, subDescription := "Required when food is served" }], acc.2)
      | _ => acc
    else if resourceId = "backline" then
      let configRoomSlug := underscoreSlug details.roomSlug
      match (findResource db "backline").bind (fun r => r.rooms.lookup configRoomSlug) with
      | some roomConfig =>
        let c : Cost :=
          { description := strOr roomConfig.description "Backline"
            cost := roomConfig.cost
            isRequired := false, isEditable := false }
        let perSlot1 :=
          if roomConfig.includes_projector then
            acc.1.filter (fun pc => !containsProjector pc.description)
          else acc.1
        (perSlot1 ++ [c], acc.2)
      | none => acc
    else if resourceId = "audio_tech" then
      match calculateResourceCost db resourceId details with
      | .many cs => (acc.1 ++ cs.map (fun c => { c with isRequired := false }), acc.2)
      | _ => acc
    else if resourceId = "bartender" then
      match calculateResourceCost db resourceId details with
      | .one c => (acc.1 ++ [{ c with isRequired := false }], acc.2)
      | _ => acc
    else if resource.type = "hourly" then
      let hours := diffInHours details.endTime details.startTime
      match calculateResourceCost db resourceId details with
      | .one c =>
        (acc.1 ++ [{ c with isRequired := false, subDescription := hoursAtRateNote hours resource.cost }], acc.2)
      | _ => acc
    else if resource.type = "flat" then
      match calculateResourceCost db resourceId details with
      | .one c => (acc.1 ++ [{ c with isRequired := false }], acc.2)
      | _ => acc
    else if resource.type = "custom" then
      match calculateResourceCost db resourceId details with
      | .one c => (acc.1, acc.2 ++ [{ c with isRequired := false, isEditable := true }])
      | _ => acc
    else acc

/-- `handleSecurityItem` (lines 933-959). -/
def handleSecurityItem (db : AdditionalCostsDB) (b : Booking) : Option Cost :=
  let needsSecurity := b.resources.contains "security" || b.roomSlugs.contains "parking-lot"
  if !needsSecurity then none
  else
    match findResource db "security" with
    | none => none
    | some securityConfig =>
      some { description := securityConfig.description
             subDescription := strOr securityConfig.subDescription "Will quote separately"
             cost := 0
             isEditable := true
             isRequired := b.roomSlugs.contains "parking-lot" }

/-- Return type of `calculateAdditionalCosts`. -/
structure AdditionalCostsResult where
  perSlotCosts : List Cost
  additionalCosts : List Cost
  customLineItems : List Cost
deriving DecidableEq, Repr

/-- `calculateAdditionalCosts` (lines 961-1170): the resource loop, then the
early-open staff surcharge, the consolidated security item, and the per-room
condition costs. -/
def calculateAdditionalCosts (db : AdditionalCostsDB) (b : Booking) : AdditionalCostsResult :=
  let details : ResourceDetails :=
    { roomSlug := b.roomSlugs.headD ""
      isPrivate := b.isPrivate
      expectedAttendance := b.expectedAttendance
      startTime := b.startTime
      endTime := b.endTime
      projectorIncluded := b.resources.contains "backline" }
  let slotCosts := b.resources.foldl (processResource db details) ([], [])
  let venueOpeningTime := venueOpeningOf b.startTime
  let perSlot :=
    if b.startTime < venueOpeningTime then
      let earlyOpenHours := diffInHours venueOpeningTime b.startTime
      if 0 < earlyOpenHours then
        slotCosts.1 ++
          [{ description := "Early Open Staff (" ++ toString earlyOpenHours ++ " hours)"
             subDescription := "Additional staff for early opening"
             cost := (earlyOpenHours : ℚ) * 30
             isRequired := true }]
      else slotCosts.1
    else slotCosts.1
  let custom :=
    match handleSecurityItem db b with
    | some c => slotCosts.2 ++ [c]
    | none => slotCosts.2
  let additional := b.roomSlugs.foldl (fun acc roomSlug =>
    acc ++ (db.conditions.filter (fun cond => cond.roomSlug == roomSlug)).map (fun cond =>
      { description := cond.description
        subDescription := cond.subDescription
        cost := cond.cost
        roomSlug := some roomSlug
        isRequired := cond.isRequired })) []
  { perSlotCosts := perSlot, additionalCosts := additional, customLineItems := custom }

/-- The Southern Cross validation at the top of `calculatePrice`
(lines 538-559); note the local `SOUTHERN_CROSS_ID = "southern-cross"`
shadows the module-level id constant there. -/
def southernCrossCheck (b : Booking) : Except String Unit :=
  if b.roomSlugs.contains "southern-cross" then
    if dayOfWeek b.startTime = 0 ∨ dayOfWeek b.startTime = 6 then
      .error "Southern Cross is not available for weekend bookings"
    else if 17 ≤ hourOf b.startTime ∨ 17 < hourOf b.endTime ∨
        (hourOf b.endTime = 17 ∧ 0 < minuteOf b.endTime) ∨
        hourOf b.startTime < 5 ∨ hourOf b.endTime < 5 then
      .error "Southern Cross is only available during daytime hours (before 5 PM)"
    else .ok ()
  else .ok ()

/-- One per-room estimate pushed by `calculatePrice` (lines 661-708); the
presentational cost-item records are omitted. -/
structure Estimate where
  roomSlug : String
  basePrice : ℚ
  daytimeHours : Int
  eveningHours : Int
  daytimePrice : ℚ
  eveningPrice : ℚ
  fullDayPrice : ℚ
  daytimeRate : ℚ
  eveningRate : ℚ
  additionalCosts : List Cost
  totalCost : ℚ
  minimumHours : Option ℚ
  totalBookingHours : Int
  isFullDay : Bool
deriving DecidableEq, Repr

/-- Return value of `calculatePrice`. -/
structure PriceResult where
  estimates : List Estimate
  perSlotCosts : List Cost
  slotTotal : ℚ
  slotCustomLineItems : List Cost
deriving DecidableEq, Repr

/-- The body of the room loop in `calculatePrice` (lines 612-711): rule
lookup, day-rule resolution, room pricing, room-scoped additional costs. -/
def priceRoom (rules : Rules) (additionalCosts : List Cost) (b : Booking)
    (roomSlug : String) : Except String (Estimate × ℚ) :=
  match rules.lookup roomSlug with
  | none => .error ("No pricing rules found for room: " ++ roomSlug)
  | some roomRules =>
    match getDayRules roomRules b.date with
    | none => .error ("No pricing rules found for room " ++ roomSlug ++ " on that day")
    | some dayRules =>
      let r := calculateRoomPrice b.startTime b.endTime dayRules b.isPrivate roomSlug
      let roomAdditionalCosts := additionalCosts.filter (fun c => c.roomSlug == some roomSlug)
      let roomAdditionalCostsTotal := sumCosts roomAdditionalCosts
      let est : Estimate :=
        { roomSlug := roomSlug
          basePrice := r.basePrice
          daytimeHours := r.daytimeHours
          eveningHours := r.eveningHours
          daytimePrice := r.daytimePrice
          eveningPrice := r.eveningPrice
          fullDayPrice := r.fullDayPrice
          daytimeRate := r.daytimeRate
          eveningRate := r.eveningRate
          additionalCosts := roomAdditionalCosts
          totalCost := r.basePrice + roomAdditionalCostsTotal
          minimumHours := dayRules.minimumHours
          totalBookingHours := diffInHours b.endTime b.startTime
          isFullDay := dayRules.fullDay.isSome }
      .ok (est, r.basePrice + roomAdditionalCostsTotal)

/-- The room loop of `calculatePrice`: an error for any room aborts the
booking (it is caught per booking in `getPrice`). -/
def priceRooms (rules : Rules) (additionalCosts : List Cost) (b : Booking) :
    List String → Except String (List Estimate × ℚ)
  | [] => .ok ([], 0)
  | roomSlug :: rest =>
    match priceRoom rules additionalCosts b roomSlug with
    | .error msg => .error msg
    | .ok (est, t) =>
      match priceRooms rules additionalCosts b rest with
      | .error msg => .error msg
      | .ok (ests, ts) => .ok (est :: ests, t + ts)

/-- `calculatePrice` (lines 532-739): Southern Cross validation, required
field validation, additional costs, the room loop, then the per-slot and
custom line-item totals. -/
def calculatePrice (rules : Rules) (db : AdditionalCostsDB) (b : Booking) :
    Except String PriceResult :=
  match southernCrossCheck b with
  | .error msg => .error msg
  | .ok _ =>
    if b.roomSlugs.isEmpty then .error "Invalid booking: missing required fields"
    else
      let ac := calculateAdditionalCosts db b
      match priceRooms rules ac.additionalCosts b b.roomSlugs with
      | .error msg => .error msg
      | .ok (estimates, roomsTotal) =>
        let perSlotCostsTotal := sumCosts ac.perSlotCosts
        let customLineItemsTotal := sumCosts ac.customLineItems
        .ok { estimates := estimates
              perSlotCosts := ac.perSlotCosts
              slotTotal := roomsTotal + perSlotCostsTotal + customLineItemsTotal
              slotCustomLineItems := ac.customLineItems }

/-- `prepareBookingForPricing` (lines 421-506): reject an empty room list, a
missing date, and an unparseable start or end time, before any computation. -/
def prepareBookingForPricing (b : RawBooking) : Except String Booking :=
  if b.roomSlugs.isEmpty then .error "Room slugs are undefined or empty in booking"
  else
    match b.date with
    | none => .error "Date is missing in booking data"
    | some d =>
      match b.startTime, b.endTime with
      | some s, some e =>
        .ok { roomSlugs := b.roomSlugs, startTime := s, endTime := e, date := d,
              isPrivate := b.isPrivate, expectedAttendance := b.expectedAttendance,
              resources := b.resources }
      | _, _ => .error "Invalid start or end time in booking data"

/-- One booking-cost estimate of the batch result (lines 357-392): pricing
failures are caught and replaced by an error-carrying entry with
`slotTotal = 0`. -/
structure CostEstimate where
  date : Nat
  estimates : List Estimate
  perSlotCosts : List Cost
  slotTotal : ℚ
  customLineItems : List Cost := []
  error : Option String := none
deriving DecidableEq, Repr

/-- Pricing of a single booking inside `getPrice` (lines 253-394): prepare,
then price, catching any thrown error into an error-carrying estimate. -/
def priceOne (rules : Rules) (db : AdditionalCostsDB) (date : Nat)
    (raw : RawBooking) : CostEstimate :=
  match prepareBookingForPricing raw with
  | .error msg =>
    { date := date, estimates := [], perSlotCosts := [], slotTotal := 0, error := some msg }
  | .ok prepared =>
    match calculatePrice rules db { prepared with date := date } with
    | .error msg =>
      { date := date, estimates := [], perSlotCosts := [], slotTotal := 0, error := some msg }
    | .ok r =>
      { date := date, estimates := r.estimates, perSlotCosts := r.perSlotCosts,
        slotTotal := r.slotTotal, customLineItems := r.slotCustomLineItems }

/-- The `rentalDates` request shape: date key → bookings. -/
abbrev RentalDates := List (Nat × List RawBooking)

/-- The batch result of `getPrice`. -/
structure GetPriceResult where
  costEstimates : List CostEstimate
  grandTotal : ℚ
  tax : ℚ
  totalWithTax : ℚ
deriving DecidableEq, Repr

end RevA

/-- `Number(x.toFixed(2))`: round to 2 decimal places (nearest, ties to the
larger candidate, which is what `toFixed` specifies). -/
def roundTo2 (q : ℚ) : ℚ := ((Int.floor (q * 100 + 1 / 2) : ℤ) : ℚ) / 100

/-- `HST_RATE = 0.13` (line 112). -/
def HST_RATE : ℚ := 13 / 100

namespace RevA

/-- `calculateTax` (lines 204-211): `Number((grandTotal * HST_RATE).toFixed(2))`.
The revision memoizes the result per grand total (`taxCache`); the cache
stores exactly this pure function's value, so it is modelled as the function. -/
def calculateTax (grandTotal : ℚ) : ℚ := roundTo2 (grandTotal * HST_RATE)

/-- `calculateTotalWithTax` (lines 213-221): `Number((grandTotal + tax).toFixed(2))`,
likewise memoized per grand total. -/
def calculateTotalWithTax (grandTotal : ℚ) : ℚ :=
  roundTo2 (grandTotal + calculateTax grandTotal)

/-- `getPrice` (lines 223-419): price every booking of every rental date,
isolating failures per booking; the grand total is the sum of all returned
`slotTotal`s (line 404), then tax and total-with-tax are derived from it. -/
def getPrice (rules : Rules) (db : AdditionalCostsDB) (rentalDates : RentalDates) :
    GetPriceResult :=
  let costEstimates :=
    rentalDates.foldl (fun acc p => acc ++ p.2.map (priceOne rules db p.1)) []
  let grandTotal := (costEstimates.map (fun e => e.slotTotal)).sum
  { costEstimates := costEstimates
    grandTotal := grandTotal
    tax := calculateTax grandTotal
    totalWithTax := calculateTotalWithTax grandTotal }

end RevA

/-- Whether an `Except` result is an error. -/
def isError {α : Type} : Except String α → Bool
  | .error _ => true
  | .ok _ => false

/-
Concrete instances used by the per-claim counterexamples and witnesses.
Times are minutes since a Sunday-midnight epoch: day 0 is a Sunday, day 1
(minutes 1440-2879) a Monday; e.g. 600 = Sunday 10:00, 2520 = Monday 18:00.
-/

/-- An hourly fullDay entry: rate 10 public / 12 private, minimum 4 hours. -/
def fullDayHourlyEntry : FullDayRule :=
  { publicRate := 10, privateRate := 12, type := .hourly, minimumHours := some 4 }

/-- A day rule with an hourly fullDay entry (rate 10, minimum 4 hours). -/
def fullDayHourlyRule : DayRule := { fullDay := some fullDayHourlyEntry }

/-- A day rule with a flat daytime rate 100 and crossover rate 70. -/
def flatCrossoverRule : DayRule :=
  { daytime := some { publicRate := 100, privateRate := 100, type := .flat, crossoverRate := some 70 } }

/-- An hourly daytime sub-rule: rate 40 with crossover rate 70. -/
def hourlyCrossoverPeriod : PeriodRule :=
  { publicRate := 40, privateRate := 40, type := .hourly, crossoverRate := some 70 }

/-- A day rule with hourly daytime rate 40 and crossover rate 70, plus a flat
evening rate 500 (the spec's Scenario B shape). -/
def hourlyCrossoverRule : DayRule :=
  { daytime := some hourlyCrossoverPeriod
    evening := some { publicRate := 500, privateRate := 500, type := .flat } }

/-- Scenario C: hourly daytime rate 40 with whole-booking minimumHours 4. -/
def scenarioCRule : DayRule :=
  { daytime := some { publicRate := 40, privateRate := 40, type := .hourly }
    minimumHours := some 4 }

/-- Hourly daytime rate 40 and hourly evening rate 60 (no fullDay, no minimum). -/
def daytimeEveningRule : DayRule :=
  { daytime := some { publicRate := 40, privateRate := 50, type := .hourly }
    evening := some { publicRate := 60, privateRate := 70, type := .hourly } }

/-- A one-room weekday table: Monday mapped to `scenarioCRule`. -/
def mondayRoomRules : RoomRules := [("Monday", scenarioCRule)]

/-- A catalog with main-hall priced by `daytimeEveningRule` on every day. -/
def mainHallRules : Rules := [("main-hall", [("all", daytimeEveningRule)])]

/-- Additional-cost catalog for the projector/backline scenario: a backline
resource with no room overrides and a flat 125 projector resource. -/
def backlineProjectorDb : AdditionalCostsDB :=
  { resources :=
      [{ id := "backline", cost := 0, type := "flat", description := "Backline" },
       { id := "projector", cost := 125, type := "flat", description := "Projector" }] }

/-- Monday 18:00-22:00 booking of main-hall requesting backline and projector. -/
def backlineProjectorBooking : Booking :=
  { roomSlugs := ["main-hall"], startTime := 2520, endTime := 2760, date := 1,
    resources := ["backline", "projector"] }

/-- An empty additional-cost catalog. -/
def emptyDb : AdditionalCostsDB := {}

/-- A raw booking with an inverted window: Monday 18:00 down to Monday 10:00. -/
def invertedRawBooking : RawBooking :=
  { roomSlugs := ["main-hall"], startTime := some 2520, endTime := some 2040, date := some 1 }

/-- A raw booking whose start time failed to parse. -/
def unparseableRawBooking : RawBooking :=
  { roomSlugs := ["main-hall"], startTime := none, endTime := some 2760, date := some 1 }

/-- A valid raw booking: Monday 10:00-15:00 in main-hall. -/
def validRawBooking : RawBooking :=
  { roomSlugs := ["main-hall"], startTime := some 2040, endTime := some 2340, date := some 1 }

/-- A batch of three bookings on one date, the middle one unparseable
(the spec's Scenario E shape). -/
def scenarioEBatch : RevA.RentalDates :=
  [(1, [validRawBooking, unparseableRawBooking, validRawBooking])]

/-- A Saturday 10:00-12:00 booking of southern-cross (day 6 is a Saturday). -/
def southernCrossWeekendBooking : Booking :=
  { roomSlugs := ["southern-cross"], startTime := 6 * 1440 + 600, endTime := 6 * 1440 + 720, date := 6 }

/-
Helper lemmas about the time model.
-/

theorem hourOf_eveningStartOf (s : DateTime) : hourOf (eveningStartOf s) = 17 := by
  unfold hourOf eveningStartOf
  have h : s / 1440 * 1440 + 17 * 60 = (s / 1440 * 24 + 17) * 60 := by ring
  rw [h, Nat.mul_div_cancel _ (by norm_num : (0:ℕ) < 60)]
  omega

theorem hourOf_lt_of_lt_eveningStartOf {s : Nat} (h : s < eveningStartOf s) :
    hourOf s < 17 := by
  have h2 : s < s / 1440 * 1440 + 17 * 60 := h
  have h3 : hourOf s = s / 60 % 24 := rfl
  rw [h3]
  omega

/-
Helper lemmas about the embedded operations (shared by several claim
theorems).
-/

theorem dayRulesTransform_idem (r : DayRule) :
    RevA.dayRulesTransform (RevA.dayRulesTransform r) = RevA.dayRulesTransform r := by
  obtain ⟨fd, dt, ev, mh⟩ := r
  unfold RevA.dayRulesTransform
  by_cases h : truthy mh = true
  · simp only [h, if_true]
    cases dt <;> cases ev <;> simp [RevA.attachParent, RevA.hoistMin, truthy]
  · simp only [h]
    cases dt <;> cases ev <;> simp [RevA.attachParent, RevA.hoistMin, h]

theorem lookup_isSome_roomRulesAfter (rr : RoomRules) (d : Nat) (k : String) :
    ((RevA.roomRulesAfter rr d).lookup k).isSome = (rr.lookup k).isSome := by
  unfold RevA.roomRulesAfter
  generalize RevA.dayRuleKey rr d = key
  induction rr with
  | nil => rfl
  | cons p rest ih =>
    obtain ⟨a, b⟩ := p
    simp only [List.map_cons]
    by_cases hak : a = key
    · subst hak
      rw [if_pos rfl]
      simp only [List.lookup]
      cases hka : k == a <;> simp [hka, ih]
    · rw [if_neg hak]
      simp only [List.lookup]
      cases hka : k == a <;> simp [hka, ih]

theorem dayRuleKey_roomRulesAfter (rr : RoomRules) (d : Nat) :
    RevA.dayRuleKey (RevA.roomRulesAfter rr d) d = RevA.dayRuleKey rr d := by
  unfold RevA.dayRuleKey
  rw [lookup_isSome_roomRulesAfter]

theorem priceOne_error_slotTotal (rules : Rules) (db : AdditionalCostsDB) (d : Nat)
    (raw : RawBooking) :
    (RevA.priceOne rules db d raw).error.isSome = true →
    (RevA.priceOne rules db d raw).slotTotal = 0 := by
  unfold RevA.priceOne
  split
  · intro _; rfl
  · split
    · intro _; rfl
    · intro hcontra; simp at hcontra

theorem getPrice_foldl_length (rules : Rules) (db : AdditionalCostsDB) :
    ∀ (rd : RevA.RentalDates) (init : List RevA.CostEstimate),
      (rd.foldl (fun acc p => acc ++ p.2.map (RevA.priceOne rules db p.1)) init).length =
        init.length + (rd.map (fun p => p.2.length)).sum := by
  intro rd
  induction rd with
  | nil => intro init; simp
  | cons hd tl ih =>
    intro init
    simp only [List.foldl_cons, List.map_cons, List.sum_cons, ih, List.length_append,
      List.length_map]
    omega

theorem mem_getPrice_foldl (rules : Rules) (db : AdditionalCostsDB) :
    ∀ (rd : RevA.RentalDates) (init : List RevA.CostEstimate) (x : RevA.CostEstimate),
      x ∈ rd.foldl (fun acc p => acc ++ p.2.map (RevA.priceOne rules db p.1)) init →
      x ∈ init ∨ ∃ d raw, x = RevA.priceOne rules db d raw := by
  intro rd
  induction rd with
  | nil => intro init x hx; exact Or.inl hx
  | cons hd tl ih =>
    intro init x hx
    rcases ih (init ++ hd.2.map (RevA.priceOne rules db hd.1)) x hx with hin | hex
    · rcases List.mem_append.mp hin with hin1 | hin2
      · exact Or.inl hin1
      · obtain ⟨raw, _, hraw⟩ := List.mem_map.mp hin2
        exact Or.inr ⟨hd.1, raw, hraw.symm⟩
    · exact Or.inr hex

/--
C5: For every batch, the returned tax equals grandTotal × 0.13 rounded to 2
decimal places, and the returned totalWithTax equals grandTotal + tax rounded
to 2 decimal places.  (`getPrice` derives both from its grand total through
`calculateTax`/`calculateTotalWithTax`, which round with `toFixed(2)`; the
first revision memoizes both per grand-total value, which caches exactly this
function of the grand total.)
-/
theorem batch_tax_rounding (rules : Rules) (db : AdditionalCostsDB) (rd : RevA.RentalDates) :
    (RevA.getPrice rules db rd).tax = roundTo2 ((RevA.getPrice rules db rd).grandTotal * HST_RATE) ∧
    (RevA.getPrice rules db rd).totalWithTax =
      roundTo2 ((RevA.getPrice rules db rd).grandTotal + (RevA.getPrice rules db rd).tax) :=
  ⟨rfl, rfl⟩

/--
C10: For every booking whose room list includes "southern-cross": if the
start date falls on a Saturday or Sunday (day 6 or 0), or the window starts
at hour ≥ 17, ends at hour > 17 or at 17 with minutes > 0, or starts or ends
at an hour < 5, `calculatePrice` throws (returns an error) before producing
any estimate.
-/
theorem southern_cross_rejection (rules : Rules) (db : AdditionalCostsDB) (b : Booking)
    (hmem : b.roomSlugs.contains "southern-cross" = true)
    (hbad : dayOfWeek b.startTime = 0 ∨ dayOfWeek b.startTime = 6 ∨
      17 ≤ hourOf b.startTime ∨ 17 < hourOf b.endTime ∨
      (hourOf b.endTime = 17 ∧ 0 < minuteOf b.endTime) ∨
      hourOf b.startTime < 5 ∨ hourOf b.endTime < 5) :
    isError (RevA.calculatePrice rules db b) = true := by
  have hmm : "southern-cross" ∈ b.roomSlugs := by simpa using hmem
  have hsc : ∃ m, RevA.southernCrossCheck b = Except.error m := by
    unfold RevA.southernCrossCheck
    by_cases hw : dayOfWeek b.startTime = 0 ∨ dayOfWeek b.startTime = 6
    · simp [hmm, hw]
    · have hh : 17 ≤ hourOf b.startTime ∨ 17 < hourOf b.endTime ∨
          (hourOf b.endTime = 17 ∧ 0 < minuteOf b.endTime) ∨
          hourOf b.startTime < 5 ∨ hourOf b.endTime < 5 := by tauto
      simp [hmm, hw, hh]
  obtain ⟨m, hm⟩ := hsc
  unfold RevA.calculatePrice
  rw [hm]
  rfl

/-- C10 witness: a Saturday southern-cross booking is rejected. -/
theorem southern_cross_rejection_witness :
    southernCrossWeekendBooking.roomSlugs.contains "southern-cross" = true ∧
    dayOfWeek southernCrossWeekendBooking.startTime = 6 ∧
    isError (RevA.calculatePrice [] emptyDb southernCrossWeekendBooking) = true :=
  ⟨by decide, by decide,
    southern_cross_rejection [] emptyDb southernCrossWeekendBooking (by decide)
      (Or.inr (Or.inl (by decide)))⟩

/--
C1 counterexample: the claim's hourly fullDay formula
(rate × max(totalBookingHours, minimumHours)) fails on `calculateRoomPrice`
(first revision, lines 786-823): a 2-hour booking against an hourly fullDay
rule of rate 10 with minimum 4 hours is priced 10, not 10 × max(2,4) = 40.
-/
theorem fullDay_hourly_ignored_counterexample :
    fullDayHourlyRule.fullDay = some fullDayHourlyEntry ∧
    fullDayHourlyEntry.type = RateType.hourly ∧
    diffInHours 720 600 = 2 ∧
    (RevA.calculateRoomPrice 600 720 fullDayHourlyRule false "main-hall").basePrice = 10 ∧
    (10 : ℚ) ≠ 10 * max ((2 : ℤ) : ℚ) 4 := by
  refine ⟨rfl, rfl, by decide, rfl, ?_⟩
  have hmax : max ((2 : ℤ) : ℚ) 4 = 4 := max_eq_right (by push_cast; norm_num)
  rw [hmax]
  norm_num

/--
C1 (amended): when the resolved day rule has a fullDay entry, the second
revision's per-room `calculatePrice` logic returns rate = fullDay[private if
isPrivate else public], with price = rate when fullDay.type is flat and
price = rate × max(totalBookingHours, minimumHours ?? 0) when hourly; the
first revision's `calculateRoomPrice` returns the raw per-privacy fullDay
value regardless of type and minimum hours.  Both return immediately with
daytimeHours = eveningHours = 0, without evaluating the daytime/evening
sub-rules.
-/
theorem fullDay_pricing_by_revision (s e : DateTime) (rule : DayRule) (f : FullDayRule)
    (isPrivate : Bool) (roomSlug : String) (hf : rule.fullDay = some f) :
    (RevB.calculatePriceRoom rule isPrivate s e).basePrice =
      (match f.type with
       | .flat => selFullDayRate f isPrivate
       | .hourly => selFullDayRate f isPrivate * max ((diffInHours e s : ℤ) : ℚ) (f.minimumHours.getD 0)) ∧
    (RevB.calculatePriceRoom rule isPrivate s e).daytimeHours = 0 ∧
    (RevB.calculatePriceRoom rule isPrivate s e).eveningHours = 0 ∧
    (RevB.calculatePriceRoom rule isPrivate s e).eveningPrice = 0 ∧
    (RevA.calculateRoomPrice s e rule isPrivate roomSlug).basePrice = selFullDayRate f isPrivate ∧
    (RevA.calculateRoomPrice s e rule isPrivate roomSlug).daytimeHours = 0 ∧
    (RevA.calculateRoomPrice s e rule isPrivate roomSlug).eveningHours = 0 ∧
    (RevA.calculateRoomPrice s e rule isPrivate roomSlug).daytimePrice = 0 ∧
    (RevA.calculateRoomPrice s e rule isPrivate roomSlug).eveningPrice = 0 := by
  simp [RevB.calculatePriceRoom, RevA.calculateRoomPrice, hf]

/-- C1 witness: the amended theorem at the hourly fullDay rule, 10:00-12:00. -/
theorem fullDay_pricing_by_revision_witness :
    (RevB.calculatePriceRoom fullDayHourlyRule false 600 720).basePrice =
      selFullDayRate fullDayHourlyEntry false *
        max ((diffInHours 720 600 : ℤ) : ℚ) (fullDayHourlyEntry.minimumHours.getD 0) ∧
    (RevB.calculatePriceRoom fullDayHourlyRule false 600 720).daytimeHours = 0 ∧
    (RevB.calculatePriceRoom fullDayHourlyRule false 600 720).eveningHours = 0 ∧
    (RevB.calculatePriceRoom fullDayHourlyRule false 600 720).eveningPrice = 0 ∧
    (RevA.calculateRoomPrice 600 720 fullDayHourlyRule false "main-hall").basePrice =
      selFullDayRate fullDayHourlyEntry false ∧
    (RevA.calculateRoomPrice 600 720 fullDayHourlyRule false "main-hall").daytimeHours = 0 ∧
    (RevA.calculateRoomPrice 600 720 fullDayHourlyRule false "main-hall").eveningHours = 0 ∧
    (RevA.calculateRoomPrice 600 720 fullDayHourlyRule false "main-hall").daytimePrice = 0 ∧
    (RevA.calculateRoomPrice 600 720 fullDayHourlyRule false "main-hall").eveningPrice = 0 :=
  fullDay_pricing_by_revision 600 720 fullDayHourlyRule fullDayHourlyEntry false "main-hall" rfl

/--
C2 counterexample, in two parts.  A booking 15:00-19:00 (crossing the 17:00
boundary) with a flat daytime rule of rate 100 and crossoverRate 70 is priced
at the regular flat rate 100 by `calculateRoomPrice`/`calculateHoursAndCost`
(first revision), not at the crossover rate 70 the claim requires.  And a
booking 03:00-18:00 — also crossing the boundary, with an hourly daytime rule
carrying crossoverRate 70 — gets no daytime pricing at all (daytimePrice = 0,
daytimeHours = 0, though the segment is 14 hours): `isEveningTime` counts
hours < 5 as evening, so `isEveningOnly` skips the daytime branch entirely.
-/
theorem crossover_daytime_counterexample :
    flatCrossoverRule.daytime =
      some { publicRate := 100, privateRate := 100, type := .flat, crossoverRate := some 70 } ∧
    (900 < eveningStartOf 900 ∧ eveningStartOf 900 < 1140) ∧
    (RevA.calculateRoomPrice 900 1140 flatCrossoverRule false "main-hall").daytimePrice = 100 ∧
    ((100 : ℚ) ≠ 70) ∧
    hourlyCrossoverRule.daytime = some hourlyCrossoverPeriod ∧
    (180 < eveningStartOf 180 ∧ eveningStartOf 180 < 1080) ∧
    diffInHours (eveningStartOf 180) 180 = 14 ∧
    (RevA.calculateRoomPrice 180 1080 hourlyCrossoverRule false "main-hall").daytimePrice = 0 ∧
    (RevA.calculateRoomPrice 180 1080 hourlyCrossoverRule false "main-hall").daytimeHours = 0 ∧
    ((0 : ℚ) ≠ 70 * (14 : ℚ)) := by
  refine ⟨rfl, by decide, ?_, by norm_num, rfl, by decide, by decide, ?_, ?_, by norm_num⟩
  · rfl
  · rfl
  · rfl

/--
C2 (amended): for every booking crossing the 17:00 boundary whose daytime
rule defines a non-zero crossoverRate, the first revision behaves as follows.
Unless both endpoints fall in evening hours (hour ≥ 17 or < 5), the daytime
segment (start to 17:00) is priced at crossoverRate × daytimeHours when the
daytime rule is hourly — with no minimum-hour floor (this revision applies
none anywhere in room pricing) — while a flat daytime rule keeps the regular
flat rate: the crossover substitution only affects hourly pricing.  When both
endpoints do fall in evening hours (e.g. a 03:00-18:00 booking), the daytime
branch is skipped entirely and daytimePrice = daytimeHours = 0, so no
crossover pricing occurs at all.
-/
theorem crossover_rate_daytime_segment (s e : DateTime) (rule : DayRule) (d : PeriodRule)
    (c : ℚ) (isPrivate : Bool) (roomSlug : String)
    (hfd : rule.fullDay = none) (hd : rule.daytime = some d)
    (hcr : d.crossoverRate = some c) (hc0 : c ≠ 0)
    (hx1 : s < eveningStartOf s) (hx2 : eveningStartOf s < e) :
    ((RevA.isEveningTime s && RevA.isEveningTime e) = false →
      (RevA.calculateRoomPrice s e rule isPrivate roomSlug).daytimePrice =
        (match d.type with
         | .hourly => c * ((diffInHours (eveningStartOf s) s : ℤ) : ℚ)
         | .flat => selRate d isPrivate) ∧
      (RevA.calculateRoomPrice s e rule isPrivate roomSlug).daytimeHours =
        diffInHours (eveningStartOf s) s) ∧
    ((RevA.isEveningTime s && RevA.isEveningTime e) = true →
      (RevA.calculateRoomPrice s e rule isPrivate roomSlug).daytimePrice = 0 ∧
      (RevA.calculateRoomPrice s e rule isPrivate roomSlug).daytimeHours = 0) := by
  have h17 : hourOf s < 17 := hourOf_lt_of_lt_eveningStartOf hx1
  have hcp : RevA.isCrossoverPeriod s (eveningStartOf s) = true := by
    unfold RevA.isCrossoverPeriod
    simp [hourOf_eveningStartOf, h17]
  have htr : truthy (some c) = true := by simp [truthy, hc0]
  constructor
  · intro heo
    cases hdt : d.type with
    | flat =>
      simp [RevA.calculateRoomPrice, RevA.calculateHoursAndCost, hfd, hd, hcr, hdt, heo,
        hx1, hx2, hcp, htr]
    | hourly =>
      simp [RevA.calculateRoomPrice, RevA.calculateHoursAndCost, hfd, hd, hcr, hdt, heo,
        hx1, hx2, hcp, htr]
  · intro heo
    simp [RevA.calculateRoomPrice, hfd, hd, heo]

/-- C2 witness: Scenario B's daytime side — 15:00-19:00 against the hourly
daytime rule with crossover rate 70 prices the 2-hour daytime segment at the
crossover rate. -/
theorem crossover_rate_daytime_segment_witness :
    (RevA.isEveningTime 900 && RevA.isEveningTime 1140) = false ∧
    ((RevA.calculateRoomPrice 900 1140 hourlyCrossoverRule false "main-hall").daytimePrice =
      70 * ((diffInHours (eveningStartOf 900) 900 : ℤ) : ℚ) ∧
     (RevA.calculateRoomPrice 900 1140 hourlyCrossoverRule false "main-hall").daytimeHours =
      diffInHours (eveningStartOf 900) 900) :=
  ⟨by decide,
   (crossover_rate_daytime_segment 900 1140 hourlyCrossoverRule hourlyCrossoverPeriod 70
      false "main-hall" rfl rfl rfl (by norm_num) (by decide) (by decide)).1 (by decide)⟩

/--
C3: in the second revision's `calculatePrice`, for a booking without a
fullDay rule whose day rule sets a whole-booking minimumHours m with
totalBookingHours < m (and positive hours), the base price is the raw
daytime+evening price scaled by m / totalBookingHours whenever the scaled
price exceeds the raw price — whether or not a crossover rate was applied,
so in particular when it was not.
-/
theorem wholeBooking_minimum_hours_scaling (rule : DayRule) (isPrivate : Bool)
    (s e : DateTime) (m : ℚ)
    (hfd : rule.fullDay = none) (hm : rule.minimumHours = some m)
    (hpos : 0 < diffInHours e s) (hlt : ((diffInHours e s : ℤ) : ℚ) < m)
    (_hnc : (RevB.calculatePriceRoom rule isPrivate s e).crossoverApplied = false) :
    (RevB.calculatePriceRoom rule isPrivate s e).basePrice =
      (if RevB.rawBasePrice rule isPrivate s e <
          RevB.rawBasePrice rule isPrivate s e * (m / ((diffInHours e s : ℤ) : ℚ))
       then RevB.rawBasePrice rule isPrivate s e * (m / ((diffInHours e s : ℤ) : ℚ))
       else RevB.rawBasePrice rule isPrivate s e) := by
  have hq : (0 : ℚ) < ((diffInHours e s : ℤ) : ℚ) := by exact_mod_cast hpos
  have hm0 : m ≠ 0 := by
    intro h0
    rw [h0] at hlt
    exact absurd (hq.trans hlt) (lt_irrefl 0)
  have htr : truthy (some m) = true := by simp [truthy, hm0]
  simp only [RevB.calculatePriceRoom, hfd, hm]
  simp only [RevB.applyMinimumHours, hm, htr, Option.getD_some, hlt, true_and, if_true]

/-- C3 witness: Scenario C — a 2-hour daytime booking at hourly rate 40 with
whole-booking minimumHours 4 is scaled from 80 to 80 × (4/2) = 160. -/
theorem wholeBooking_minimum_hours_scaling_witness :
    ((RevB.calculatePriceRoom scenarioCRule false 600 720).basePrice =
      (if RevB.rawBasePrice scenarioCRule false 600 720 <
          RevB.rawBasePrice scenarioCRule false 600 720 * (4 / ((diffInHours 720 600 : ℤ) : ℚ))
       then RevB.rawBasePrice scenarioCRule false 600 720 * (4 / ((diffInHours 720 600 : ℤ) : ℚ))
       else RevB.rawBasePrice scenarioCRule false 600 720)) ∧
    RevB.rawBasePrice scenarioCRule false 600 720 = 80 ∧
    (RevB.calculatePriceRoom scenarioCRule false 600 720).basePrice = 160 :=
  ⟨wholeBooking_minimum_hours_scaling scenarioCRule false 600 720 4 rfl rfl (by decide)
      (by norm_num [diffInHours]) rfl,
   by norm_num [RevB.rawBasePrice, RevB.daytimeCalc, RevB.eveningCalc, scenarioCRule,
      selRate, truthy, diffInHours, eveningStartOf],
   by norm_num [RevB.calculatePriceRoom, RevB.daytimeCalc, RevB.eveningCalc,
      RevB.rawBasePrice, RevB.applyMinimumHours, RevB.initDaytimePrice, scenarioCRule,
      selRate, truthy, diffInHours, eveningStartOf]⟩

/--
C4 (code bug in the second revision): a booking 18:00-22:00 lying entirely
after the 17:00 boundary has daytimeHours = 0, but the second revision
reports daytimePrice = 40 (the configured daytime rate) rather than 0,
because its `daytimePrice` variable is initialised to the daytime rate
instead of 0; the first revision's `calculateRoomPrice` returns
daytimePrice = 0 as the claim states.
-/
theorem entirely_evening_daytimePrice_bug :
    eveningStartOf 1080 ≤ 1080 ∧
    (RevB.calculatePriceRoom daytimeEveningRule false 1080 1320).daytimeHours = 0 ∧
    (RevB.calculatePriceRoom daytimeEveningRule false 1080 1320).daytimePrice = 40 ∧
    ¬((RevB.calculatePriceRoom daytimeEveningRule false 1080 1320).daytimePrice = 0) ∧
    (RevA.calculateRoomPrice 1080 1320 daytimeEveningRule false "main-hall").daytimePrice = 0 ∧
    (RevA.calculateRoomPrice 1080 1320 daytimeEveningRule false "main-hall").daytimeHours = 0 := by
  refine ⟨by decide, rfl, rfl, ?_, rfl, rfl⟩
  rw [show (RevB.calculatePriceRoom daytimeEveningRule false 1080 1320).daytimePrice = (40:ℚ)
    from rfl]
  norm_num

/--
C6: for every batch, the grand total equals the sum of the returned
estimates' slotTotals; every booking of every rental date yields exactly one
estimate (failures do not abort the siblings); and every error-carrying
estimate has slotTotal = 0.
-/
theorem batch_error_isolation (rules : Rules) (db : AdditionalCostsDB) (rd : RevA.RentalDates) :
    (RevA.getPrice rules db rd).grandTotal =
      ((RevA.getPrice rules db rd).costEstimates.map (fun est => est.slotTotal)).sum ∧
    (RevA.getPrice rules db rd).costEstimates.length = (rd.map (fun p => p.2.length)).sum ∧
    ((RevA.getPrice rules db rd).costEstimates.filter (fun est => est.error.isSome)).all
      (fun est => est.slotTotal == 0) = true := by
  refine ⟨rfl, ?_, ?_⟩
  · simpa using getPrice_foldl_length rules db rd []
  · rw [List.all_eq_true]
    intro est hmem
    rw [List.mem_filter] at hmem
    obtain ⟨hin, herr⟩ := hmem
    rcases mem_getPrice_foldl rules db rd [] est hin with hfalse | ⟨d, raw, heq⟩
    · simp at hfalse
    · subst heq
      have hz := priceOne_error_slotTotal rules db d raw herr
      simp [hz]

/-- C6 witness: Scenario E — a batch of three bookings, the middle one with
an unparseable start time, still yields one estimate per booking, a grand
total equal to the sum of the slot totals, and zero slot totals on the
error-carrying entries. -/
theorem batch_error_isolation_witness :
    (RevA.getPrice mainHallRules emptyDb scenarioEBatch).grandTotal =
      ((RevA.getPrice mainHallRules emptyDb scenarioEBatch).costEstimates.map
        (fun est => est.slotTotal)).sum ∧
    (RevA.getPrice mainHallRules emptyDb scenarioEBatch).costEstimates.length =
      (scenarioEBatch.map (fun p => p.2.length)).sum ∧
    ((RevA.getPrice mainHallRules emptyDb scenarioEBatch).costEstimates.filter
      (fun est => est.error.isSome)).all (fun est => est.slotTotal == 0) = true :=
  batch_error_isolation mainHallRules emptyDb scenarioEBatch

/--
C7 (code bug in the first revision): requesting both backline and projector
suppresses the projector line item even though no backline room override
carries includes_projector (here the backline resource has no room overrides
at all): `projectorIncluded` is set to "backline was requested" rather than
to the override's flag, so no projector item is emitted despite the
projector's catalog entry existing with cost 125.
-/
theorem projector_suppressed_without_flag_bug :
    (RevA.calculateAdditionalCosts backlineProjectorDb backlineProjectorBooking).perSlotCosts = [] ∧
    (RevA.calculateAdditionalCosts backlineProjectorDb backlineProjectorBooking).customLineItems = [] ∧
    RevA.findResource backlineProjectorDb "projector" =
      some { id := "projector", cost := 125, type := "flat", description := "Projector" } ∧
    backlineProjectorBooking.resources.contains "projector" = true :=
  ⟨rfl, rfl, rfl, rfl⟩

/--
C8 counterexample: a booking with an inverted window (start Monday 18:00,
end Monday 10:00) is not rejected: `prepareBookingForPricing` and
`calculatePrice` validate only presence and parseability of the fields, never
start < end, so the booking is priced and its estimate carries no error.
-/
theorem inverted_window_priced_counterexample :
    invertedRawBooking.startTime = some 2520 ∧ invertedRawBooking.endTime = some 2040 ∧
    (2040 : Nat) < 2520 ∧
    (RevA.priceOne mainHallRules emptyDb 1 invertedRawBooking).error = none := by
  refine ⟨rfl, rfl, by norm_num, rfl⟩

/--
C8 (amended): a booking whose room list is empty or whose start or end time
is unparseable fails in `prepareBookingForPricing` with a validation error
before any price computation, and its batch entry is an error-carrying
estimate with slotTotal = 0; an inverted time window, however, is not
validated and still produces a priced estimate.
-/
theorem validation_rejects_missing_fields (rules : Rules) (db : AdditionalCostsDB)
    (date : Nat) (raw : RawBooking)
    (h : raw.roomSlugs = [] ∨ raw.startTime = none ∨ raw.endTime = none) :
    isError (RevA.prepareBookingForPricing raw) = true ∧
    (RevA.priceOne rules db date raw).error.isSome = true ∧
    (RevA.priceOne rules db date raw).slotTotal = 0 := by
  have hp : ∃ m, RevA.prepareBookingForPricing raw = Except.error m := by
    unfold RevA.prepareBookingForPricing
    rcases h with h | h | h
    · simp [h]
    · by_cases he : raw.roomSlugs.isEmpty = true
      · simp [he]
      · simp only [he, if_false]
        cases raw.date <;> cases hst : raw.startTime <;> simp_all
    · by_cases he : raw.roomSlugs.isEmpty = true
      · simp [he]
      · simp only [he, if_false]
        cases raw.date <;> cases hst : raw.startTime <;> cases het : raw.endTime <;> simp_all
  obtain ⟨m, hm⟩ := hp
  unfold RevA.priceOne
  rw [hm]
  exact ⟨rfl, rfl, rfl⟩

/-- C8 witness: an unparseable start time is rejected with an error-carrying
zero estimate. -/
theorem validation_rejects_missing_fields_witness :
    isError (RevA.prepareBookingForPricing unparseableRawBooking) = true ∧
    (RevA.priceOne mainHallRules emptyDb 1 unparseableRawBooking).error.isSome = true ∧
    (RevA.priceOne mainHallRules emptyDb 1 unparseableRawBooking).slotTotal = 0 :=
  validation_rejects_missing_fields mainHallRules emptyDb 1 unparseableRawBooking
    (Or.inr (Or.inl rfl))

/--
C9 counterexample: pricing does not leave the rule catalog unchanged —
resolving the Monday rule (which carries a top-level minimumHours and a
daytime sub-rule) rewrites the stored mapping in place.
-/
theorem catalog_mutated_counterexample :
    RevA.roomRulesAfter mondayRoomRules 1 ≠ mondayRoomRules := by decide

/--
C9 (amended): `getDayRules` rewrites the resolved day rule in place (hoisting
a truthy top-level minimumHours into the daytime/evening sub-rules, deleting
the top-level value, and attaching parent references), so the catalog is not
identical after a first pricing call; the rewrite is idempotent, so any
pricing call after the first leaves the already-rewritten mapping unchanged.
-/
theorem day_rule_rewrite_idempotent (rr : RoomRules) (d : Nat) :
    RevA.roomRulesAfter (RevA.roomRulesAfter rr d) d = RevA.roomRulesAfter rr d := by
  have hkey := dayRuleKey_roomRulesAfter rr d
  conv_lhs => rw [RevA.roomRulesAfter, hkey]
  conv_lhs => rw [RevA.roomRulesAfter]
  rw [List.map_map]
  apply List.map_congr_left
  intro p _
  by_cases hp : p.1 = RevA.dayRuleKey rr d
  · simp [Function.comp, hp, dayRulesTransform_idem]
  · simp [Function.comp, hp]

end Tranzac
